import Mathlib

/-!
# A shallow embedding of the `go_compiler` repository

This file embeds, in Lean 4, the parts of the repository that the
verification claims are about:

* the `bytecode` package (`Make`, `ReadUint16`, the `definitions` table) —
  from `src/vm/vm.go`;
* the `compiler` package (`Compiler`, `Compile`, `emit`, `addConstant`,
  `addInstruction`) — from `src/compiler/compiler.go`;
* the `vm` package (`push`, `pop`, `LastPopped`, `pushFrame`, `popFrame`,
  `callFunction`, `executeIndex`, `executeComparison`,
  `executeIntegerComparison`, the `OpReturnValue` / `OpReturnNothing`
  cases of `Run`) — from the full VM in `src/parser/parser.go`.

Go code that can fail is embedded with an explicit result type `Res` that
separates the two failure channels of the source: `vmError` for a Go
`error` return value (surfaced to the embedder), and `goPanic` for a Go
runtime panic (out-of-range slice index, failed type assertion, nil
dereference), which crashes the process instead of being returned.

The runtime object model (`object` package) and the `Frame` type are not
under `src/`; they are modelled from the specification, and each such
definition is marked `Modelled from the spec`.
-/

namespace GoInterp

/-! ## Bytecode (`src/vm/vm.go`, `bytecode` package) -/

/-- The one opcode defined in the source `bytecode` package:
`OpConstant Opcode = iota`, so its byte value is 0. -/
def OpConstant : Nat := 0

/-- Modelled from the spec (§4.1): the remaining opcodes are not declared in
the `bytecode` package under `src/` (only their VM dispatch cases are).
The spec assigns dense sequential numbers starting at 0 in table order. -/
def OpTrue : Nat := 1

def OpFalse : Nat := 2

def OpNull : Nat := 3

def OpPop : Nat := 4

def OpAdd : Nat := 5

def OpSub : Nat := 6

def OpMul : Nat := 7

def OpDiv : Nat := 8

def OpEqual : Nat := 9

def OpNotEqual : Nat := 10

def OpGreater : Nat := 11

def OpBang : Nat := 12

def OpMinus : Nat := 13

def OpJump : Nat := 14

def OpJumpNotTruthy : Nat := 15

def OpSetGlobal : Nat := 16

def OpGetGlobal : Nat := 17

def OpSetLocal : Nat := 18

def OpGetLocal : Nat := 19

def OpArray : Nat := 20

def OpHash : Nat := 21

def OpIndex : Nat := 22

def OpCall : Nat := 23

def OpReturnValue : Nat := 24

def OpReturnNothing : Nat := 25

/-- `bytecode.Definition`: opcode name and operand widths, for encoding and
disassembly. -/
structure Definition where
  name : String
  operandWidths : List Nat
deriving DecidableEq

/-- The `definitions` map of the source `bytecode` package: it holds only
`OpConstant`, with a single 2-byte operand. -/
def definitions (op : Nat) : Option Definition :=
  if op = OpConstant then some ⟨"OpConstant", [2]⟩ else none

/-- `binary.BigEndian.PutUint16(instruction[offset:], uint16(o))`: write the
low 16 bits of `o` big-endian at `offset` and `offset+1`. -/
def putUint16 (buf : List Nat) (offset : Nat) (o : Nat) : List Nat :=
  (buf.set offset (o % 65536 / 256)).set (offset + 1) (o % 65536 % 256)

/-- The operand-writing loop of `Make`: each operand is written at the
running offset according to its width (only width 2 is handled by the
source's `switch width`). The source indexes `OperandWidths[i]` by the
operand's position, here realised by zipping operands with widths. -/
def writeOperands : List Nat → Nat → List (Nat × Nat) → List Nat
  | buf, _, [] => buf
  | buf, offset, (o, width) :: rest =>
    writeOperands (if width = 2 then putUint16 buf offset o else buf)
      (offset + width) rest

/-- `bytecode.Make`: look up the opcode's definition (empty instruction if
undefined), allocate `1 + sum of widths` zero bytes, put the opcode byte at
position 0 and the big-endian operands after it. -/
def Make (op : Nat) (operands : List Nat) : List Nat :=
  match definitions op with
  | none => []
  | some d =>
    let numBytes := 1 + d.operandWidths.foldl (fun a w => a + w) 0
    let instruction := (List.replicate numBytes 0).set 0 op
    writeOperands instruction 1 (operands.zip d.operandWidths)

/-- `bytecode.ReadUint16`: big-endian decode of the first two bytes (the
source panics if fewer than two bytes are present; callers always pass a
long-enough slice). -/
def ReadUint16 (ins : List Nat) : Nat :=
  256 * ins.getD 0 0 + ins.getD 1 0

/-! ## Runtime object model

Modelled from the spec (§3): the `object` package of the repository is not
under `src/` — only its uses in the compiler and the VM are. -/

/-- Modelled from the spec: a *hash-key* is a pair (type-tag, content-hash)
whose equality agrees with value equality on the hashable values
(integer, boolean, string). -/
inductive HashKey where
  | intKey (v : Int)
  | boolKey (b : Bool)
  | strKey (s : String)
deriving DecidableEq

/-- Modelled from the spec: `object.CompiledFunction` — an instruction
sequence plus `NumLocals` and `NumParameters`. -/
structure CompiledFn where
  instructions : List Nat
  numLocals : Nat
  numParameters : Nat
deriving DecidableEq

/-- Modelled from the spec: the tagged runtime value. Go holds most objects
behind pointers; for the heap-allocated variants whose comparison opcodes
compare references (string, array, hash, compiled-function) the allocation
identity is modelled by an explicit `addr` field. `boolean` and `null`
stand for the process-wide shared singletons `True`, `False`, `Null`
(spec §5: they must be shared), so no address is needed for them. -/
inductive Obj where
  | integer (v : Int)
  | boolean (b : Bool)
  | null
  | str (addr : Nat) (s : String)
  | array (addr : Nat) (elems : List Obj)
  | hash (addr : Nat) (pairs : List (HashKey × Obj × Obj))
  | compiledFunction (addr : Nat) (fn : CompiledFn)

/-- Modelled from the spec: the `object.ObjectType` tags returned by
`Object.Type()`. -/
inductive ObjType where
  | INTEGER_OBJECT
  | BOOLEAN_OBJECT
  | NULL_OBJECT
  | STRING_OBJECT
  | ARRAY_OBJECT
  | HASH_OBJECT
  | COMPILED_FUNCTION_OBJECT
deriving DecidableEq

/-- Modelled from the spec: the `%s` rendering of an object type tag in VM
error messages. -/
def ObjType.typeName : ObjType → String
  | .INTEGER_OBJECT => "INTEGER"
  | .BOOLEAN_OBJECT => "BOOLEAN"
  | .NULL_OBJECT => "NULL"
  | .STRING_OBJECT => "STRING"
  | .ARRAY_OBJECT => "ARRAY"
  | .HASH_OBJECT => "HASH"
  | .COMPILED_FUNCTION_OBJECT => "COMPILED_FUNCTION_OBJ"

/-- Modelled from the spec: `Object.Type()`. -/
def Obj.type : Obj → ObjType
  | .integer _ => .INTEGER_OBJECT
  | .boolean _ => .BOOLEAN_OBJECT
  | .null => .NULL_OBJECT
  | .str _ _ => .STRING_OBJECT
  | .array _ _ => .ARRAY_OBJECT
  | .hash _ _ => .HASH_OBJECT
  | .compiledFunction _ _ => .COMPILED_FUNCTION_OBJECT

/-- Modelled from the spec: a value is hashable iff it is an integer, a
boolean or a string; `HashKey()` derives the key from the value's content
(so equal hashable values get equal keys). `none` models the failed
`index.(object.Hashable)` assertion for every other variant. -/
def hashKeyOf : Obj → Option HashKey
  | .integer v => some (.intKey v)
  | .boolean b => some (.boolKey b)
  | .str _ s => some (.strKey s)
  | _ => none

/-- Whether an object is an `*object.CompiledFunction` (the type assertion
in `callFunction`). -/
def Obj.isCompiledFunctionObj : Obj → Bool
  | .compiledFunction _ _ => true
  | _ => false

/-- Modelled from the spec (§3, §5): Go interface equality `right == left`
as used in the non-integer branch of `executeComparison`. Two interface
values are `==` iff they hold the same dynamic type and the same pointer.
For the shared singletons `True` / `False` / `Null` pointer equality
coincides with the carried value; for heap objects it is the allocation
address. Two integer objects never reach this comparison (the integer
branch catches them first), so they fall into the catch-all. -/
def refEq : Obj → Obj → Bool
  | .boolean b1, .boolean b2 => b1 = b2
  | .null, .null => true
  | .str a1 _, .str a2 _ => a1 = a2
  | .array a1 _, .array a2 _ => a1 = a2
  | .hash a1 _, .hash a2 _ => a1 = a2
  | .compiledFunction a1 _, .compiledFunction a2 _ => a1 = a2
  | _, _ => false

/-- `toBooleanObject`: map a host boolean to the shared singleton `True` or
`False`. -/
def toBooleanObject (input : Bool) : Obj :=
  if input then Obj.boolean true else Obj.boolean false

/-! ## Compiler (`src/compiler/compiler.go`) -/

/-- The syntax-tree node kinds the source compiler's `switch` mentions
(`*ast.Program`, `*ast.ExpressionStatement`, `*ast.Infix`,
`*ast.IntegerLiteral`), plus a boolean literal standing for any node kind
the switch does not mention (those fall through with no effect). -/
inductive Node where
  | program (statements : List Node)
  | expressionStatement (expr : Node)
  | infixExpr (op : String) (left : Node) (right : Node)
  | integerLiteral (v : Int)
  | booleanLit (b : Bool)

/-- `compiler.Compiler`: the generated instruction bytes and the constant
pool. -/
structure Compiler where
  instructions : List Nat
  constants : List Obj

/-- `compiler.BuildCompiler`. -/
def BuildCompiler : Compiler :=
  { instructions := [], constants := [] }

/-- `Compiler.addConstant`: append to the pool, return the new constant's
index (`len(constants) - 1` after the append). -/
def addConstant (c : Compiler) (obj : Obj) : Compiler × Nat :=
  ({ c with constants := c.constants ++ [obj] }, c.constants.length)

/-- `Compiler.addInstruction`: append bytes, return the starting position. -/
def addInstruction (c : Compiler) (instruction : List Nat) : Compiler × Nat :=
  ({ c with instructions := c.instructions ++ instruction }, c.instructions.length)

/-- `Compiler.emit`: `Make` the instruction and append it. -/
def emit (c : Compiler) (op : Nat) (operands : List Nat) : Compiler × Nat :=
  addInstruction c (Make op operands)

mutual

/-- `Compiler.Compile` from `src/compiler/compiler.go`. Every branch of the
source returns a nil error (no case can fail), so the embedding is a pure
state transformer. The `*ast.Infix` case compiles `node.Left`, then
`node.Right`, and emits nothing; the `*ast.ExpressionStatement` case
compiles the inner expression and emits nothing; node kinds outside the
switch leave the compiler unchanged. -/
def compile : Node → Compiler → Compiler
  | Node.program statements, c => compileList statements c
  | Node.expressionStatement expr, c => compile expr c
  | Node.infixExpr _ left right, c => compile right (compile left c)
  | Node.integerLiteral v, c =>
    let p := addConstant c (Obj.integer v)
    (emit p.1 OpConstant [p.2]).1
  | Node.booleanLit _, c => c

/-- The `for _, statement := range node.Statements` loop of the
`*ast.Program` case. -/
def compileList : List Node → Compiler → Compiler
  | [], c => c
  | s :: rest, c => compileList rest (compile s c)

end

/-! ## Virtual machine (`src/parser/parser.go`, `vm` package) -/

/-- The outcome of a fallible VM operation: `ok` for a nil Go error,
`vmError` for a returned Go `error` (surfaced to the embedder by `Run`),
and `goPanic` for a Go runtime panic (out-of-range index, failed type
assertion, nil dereference), which crashes the process and is *not* an
error result. -/
inductive Res (α : Type) where
  | ok (a : α)
  | vmError (msg : String)
  | goPanic (msg : String)
deriving DecidableEq

/-- Sequencing that propagates both failure channels, the way an early
`return err` and an unwinding panic both do in Go. -/
def Res.bind {α β : Type} : Res α → (α → Res β) → Res β
  | .ok a, f => f a
  | .vmError m, _ => .vmError m
  | .goPanic m, _ => .goPanic m

/-- `const stackCapacity = 2048`. -/
def stackCapacity : Nat := 2048

/-- `const GlobalCapacity = 65536`. -/
def GlobalCapacity : Nat := 65536

/-- `const frameCapacity = 1024`. -/
def frameCapacity : Nat := 1024

/-- Modelled from the spec (§3): the `Frame` type (its Go file is not under
`src/`) — a record `(function, ip, base_pointer)`; `ip` points at the byte
just executed, `base_pointer` is the stack index where the frame's
arguments and locals begin. -/
structure Frame where
  fn : CompiledFn
  ip : Int
  basePointer : Nat
deriving DecidableEq

/-- Modelled from the spec (§3): `BuildFrame` starts a frame with
`ip = -1` so that the fetch step's pre-increment lands on byte 0. -/
def BuildFrame (fn : CompiledFn) (basePointer : Nat) : Frame :=
  { fn := fn, ip := -1, basePointer := basePointer }

/-- `vm.VM`: constant pool, operand stack (a fixed 2,048-slot slice in Go,
with `stackPointer` one past the top), globals slice, and the frame stack
(a fixed 1,024-slot slice of nullable frame pointers, with `framesIndex`
one past the top). -/
structure VM where
  constants : List Obj
  stack : List Obj
  stackPointer : Nat
  globals : List Obj
  frames : List (Option Frame)
  framesIndex : Nat

/-- `VM.push`: `stackPointer >= stackCapacity` is the "Stack overflow"
error; otherwise the value is stored at `stack[stackPointer]` (a Go slice
write, which would panic if the index were ever outside the backing
slice — in the source the slice always has length `stackCapacity`) and
the pointer is incremented. -/
def push (vm : VM) (o : Obj) : Res VM :=
  if stackCapacity ≤ vm.stackPointer then .vmError "Stack overflow"
  else if vm.stack.length ≤ vm.stackPointer then .goPanic "index out of range"
  else .ok { vm with stack := vm.stack.set vm.stackPointer o,
                     stackPointer := vm.stackPointer + 1 }

/-- `VM.pop`: reads `stack[stackPointer-1]` with no bounds check (a Go
panic when the stack is empty or the pointer is past the slice), then only
decrements the pointer — the slot's contents are left in place. -/
def pop (vm : VM) : Res (Obj × VM) :=
  if vm.stackPointer = 0 ∨ vm.stack.length < vm.stackPointer then
    .goPanic "index out of range"
  else
    .ok (vm.stack.getD (vm.stackPointer - 1) Obj.null,
         { vm with stackPointer := vm.stackPointer - 1 })

/-- `VM.LastPopped`: returns `stack[stackPointer]`, the slot just above the
top — exactly where `pop` left the last popped value (a Go panic if the
index is past the backing slice). -/
def LastPopped (vm : VM) : Res Obj :=
  if vm.stack.length ≤ vm.stackPointer then .goPanic "index out of range"
  else .ok (vm.stack.getD vm.stackPointer Obj.null)

/-- `VM.pushFrame`: `vm.frames[vm.framesIndex] = f; vm.framesIndex++` with
NO capacity check — when the frame stack already holds `len(frames)`
frames the slice write is out of range and Go panics. -/
def pushFrame (vm : VM) (f : Frame) : Res VM :=
  if vm.framesIndex < vm.frames.length then
    .ok { vm with frames := vm.frames.set vm.framesIndex (some f),
                  framesIndex := vm.framesIndex + 1 }
  else .goPanic "index out of range"

/-- `VM.popFrame`: decrement `framesIndex` and return `frames[framesIndex]`
(a Go panic when no frame is on the stack; the returned pointer may be
nil, which makes the *caller's* field access panic). -/
def popFrame (vm : VM) : Res (Option Frame × VM) :=
  if vm.framesIndex = 0 then .goPanic "index out of range"
  else
    .ok (vm.frames.getD (vm.framesIndex - 1) none,
         { vm with framesIndex := vm.framesIndex - 1 })

/-- `VM.callFunction`: type-assert the callee at
`stack[stackPointer-1-numArgs]` ("Calling non-function" on failure), check
the arity ("Wrong number of arguments"), build a frame with
`basePointer = stackPointer - numArgs`, push it, and reserve the local
slots by setting `stackPointer = basePointer + NumLocals`. The two indexing
guards model the Go panic when the callee index falls outside the stack
slice. -/
def callFunction (vm : VM) (numArgs : Nat) : Res VM :=
  if vm.stackPointer < 1 + numArgs then .goPanic "index out of range"
  else if vm.stack.length ≤ vm.stackPointer - 1 - numArgs then
    .goPanic "index out of range"
  else
    match vm.stack.getD (vm.stackPointer - 1 - numArgs) Obj.null with
    | Obj.compiledFunction _ fn =>
      if numArgs ≠ fn.numParameters then
        .vmError ("Wrong number of arguments. Expected=" ++
          toString fn.numParameters ++ ", Actual=" ++ toString numArgs)
      else
        let frame := BuildFrame fn (vm.stackPointer - numArgs)
        (pushFrame vm frame).bind fun vm2 =>
          .ok { vm2 with stackPointer := frame.basePointer + fn.numLocals }
    | _ => .vmError "Calling non-function"

/-- The `case bytecode.OpReturnValue` arm of `VM.Run`: pop the return
value, pop the frame, reset `stackPointer = frame.basePointer - 1`
(dropping the callee and its arguments; with `basePointer = 0` the Go
pointer goes to `-1` and the subsequent push's store panics), then push
the return value. A nil popped frame makes the `frame.basePointer` access
panic. -/
def execReturnValue (vm : VM) : Res VM :=
  (pop vm).bind fun p =>
    (popFrame p.2).bind fun q =>
      match q.1 with
      | some frame =>
        if frame.basePointer = 0 then .goPanic "index out of range"
        else push { q.2 with stackPointer := frame.basePointer - 1 } p.1
      | none => .goPanic "nil pointer dereference"

/-- The `case bytecode.OpReturnNothing` arm of `VM.Run`: pop the frame,
reset `stackPointer = frame.basePointer - 1`, push the shared `Null`
singleton. -/
def execReturnNothing (vm : VM) : Res VM :=
  (popFrame vm).bind fun q =>
    match q.1 with
    | some frame =>
      if frame.basePointer = 0 then .goPanic "index out of range"
      else push { q.2 with stackPointer := frame.basePointer - 1 } Obj.null
    | none => .goPanic "nil pointer dereference"

/-- `VM.executeArrayIndex`: unchecked type assertions on both arguments
(the caller's guard makes them succeed), then push `Null` when
`i < 0 || i > len(elements)-1`, else push the element. Out of bounds is
never an error. -/
def executeArrayIndex (vm : VM) (array index : Obj) : Res VM :=
  match array, index with
  | Obj.array _ elems, Obj.integer i =>
    if i < 0 ∨ (elems.length : Int) - 1 < i then push vm Obj.null
    else push vm (elems.getD i.toNat Obj.null)
  | _, _ => .goPanic "interface conversion"

/-- `VM.executeHashIndex`: the key must satisfy the `object.Hashable`
assertion ("Unusable as hash key" otherwise); a missing key pushes `Null`,
a present key pushes the stored pair's value. -/
def executeHashIndex (vm : VM) (pairs : List (HashKey × Obj × Obj))
    (index : Obj) : Res VM :=
  match hashKeyOf index with
  | none => .vmError "Unusable as hash key"
  | some key =>
    match pairs.find? (fun p => p.1 = key) with
    | none => push vm Obj.null
    | some pair => push vm pair.2.2

/-- `VM.executeIndex`: array-with-integer-index and hash dispatch to their
helpers; everything else is the "Index operator not supported" error. The
inner matches are the helpers' always-successful type assertions. -/
def executeIndex (vm : VM) (left index : Obj) : Res VM :=
  if left.type = ObjType.ARRAY_OBJECT ∧ index.type = ObjType.INTEGER_OBJECT then
    executeArrayIndex vm left index
  else if left.type = ObjType.HASH_OBJECT then
    match left with
    | Obj.hash _ pairs => executeHashIndex vm pairs index
    | _ => .goPanic "interface conversion"
  else .vmError ("Index operator not supported for " ++ left.type.typeName)

/-- `VM.executeIntegerComparison`: unchecked type assertions
`left.(*object.Integer)` and `right.(*object.Integer)` — a Go panic when
either operand is not an integer — then push the boolean singleton for
`==`, `!=` or `>`. -/
def executeIntegerComparison (vm : VM) (left : Obj) (op : Nat)
    (right : Obj) : Res VM :=
  match left, right with
  | Obj.integer leftValue, Obj.integer rightValue =>
    if op = OpEqual then push vm (toBooleanObject (leftValue = rightValue))
    else if op = OpNotEqual then
      push vm (toBooleanObject (¬ leftValue = rightValue))
    else if op = OpGreater then
      push vm (toBooleanObject (rightValue < leftValue))
    else .vmError ("Unknown operator: " ++ toString op)
  | _, _ => .goPanic "interface conversion"

/-- `VM.executeComparison`: pop right then left; if *either* operand is an
integer, delegate to the integer comparison; otherwise `==` and `!=` push
the result of Go identity equality `right == left`, and any other opcode
is the "Unknown operator" error. -/
def executeComparison (vm : VM) (op : Nat) : Res VM :=
  (pop vm).bind fun pr =>
    (pop pr.2).bind fun pl =>
      let right := pr.1
      let left := pl.1
      let vm2 := pl.2
      if left.type = ObjType.INTEGER_OBJECT ∨
          right.type = ObjType.INTEGER_OBJECT then
        executeIntegerComparison vm2 left op right
      else if op = OpEqual then push vm2 (toBooleanObject (refEq right left))
      else if op = OpNotEqual then
        push vm2 (toBooleanObject (¬ refEq right left))
      else
        .vmError ("Unknown operator: " ++ left.type.typeName ++ " " ++
          toString op ++ " " ++ right.type.typeName)

/-! ## Helper lemmas -/

/-- Reading back the slot a `List.set` just wrote. -/
theorem getD_set_self {α : Type} (l : List α) (i : Nat) (a d : α)
    (h : i < l.length) : (l.set i a).getD i d = a := by
  rw [List.getD_eq_getElem _ _ (by simpa using h)]
  simp

/-- `pop` on a stack whose pointer is in range: the top slot is returned
and only the pointer moves. -/
theorem pop_ok (vm : VM) (h1 : 1 ≤ vm.stackPointer)
    (h2 : vm.stackPointer ≤ vm.stack.length) :
    pop vm = .ok (vm.stack.getD (vm.stackPointer - 1) Obj.null,
                  { vm with stackPointer := vm.stackPointer - 1 }) := by
  have h : ¬ (vm.stackPointer = 0 ∨ vm.stack.length < vm.stackPointer) := by omega
  simp only [pop, h, if_false]

/-- `push` below capacity and inside the backing slice: the value lands in
`stack[stackPointer]` and the pointer moves up by one. -/
theorem push_ok (vm : VM) (o : Obj) (h1 : vm.stackPointer < stackCapacity)
    (h2 : vm.stackPointer < vm.stack.length) :
    push vm o = .ok { vm with stack := vm.stack.set vm.stackPointer o,
                              stackPointer := vm.stackPointer + 1 } := by
  have hA : ¬ stackCapacity ≤ vm.stackPointer := by omega
  have hB : ¬ vm.stack.length ≤ vm.stackPointer := by omega
  simp only [push, hA, hB, if_false]

/-- Inversion of a successful `callFunction`: the callee really was a
compiled function of matching arity at `stack[sp-1-numArgs]`, the frame
stack had room, and the result state is exactly the frame push plus the
local-slot reservation. -/
theorem callFunction_ok_inv (vm vm' : VM) (numArgs : Nat)
    (h : callFunction vm numArgs = .ok vm') :
    1 + numArgs ≤ vm.stackPointer ∧
    vm.framesIndex < vm.frames.length ∧
    ∃ a fn,
      vm.stack.getD (vm.stackPointer - 1 - numArgs) Obj.null =
        Obj.compiledFunction a fn ∧
      numArgs = fn.numParameters ∧
      vm' = { vm with
              frames := vm.frames.set vm.framesIndex
                (some (BuildFrame fn (vm.stackPointer - numArgs))),
              framesIndex := vm.framesIndex + 1,
              stackPointer := vm.stackPointer - numArgs + fn.numLocals } := by
  unfold callFunction at h
  split at h
  · exact absurd h (by simp)
  split at h
  · exact absurd h (by simp)
  split at h
  case _ a fn heq =>
    split at h
    · exact absurd h (by simp)
    · unfold pushFrame at h
      split at h
      · refine ⟨by omega, by assumption, a, fn, heq, by omega, ?_⟩
        simp only [Res.bind] at h
        cases h
        rfl
      · exact absurd h (by simp [Res.bind])
  · exact absurd h (by simp)

/-! ## Claims -/

/-- **C9** (confirmed). For `0 ≤ n < 65536`, `Make(OpConstant, n)` is
exactly 3 bytes, the first byte is the `OpConstant` opcode, and decoding
the two bytes after the opcode with `ReadUint16` yields `n` back (the
big-endian u16 encode/decode pair round-trips). -/
theorem make_readUint16_roundtrip (n : Nat) (h : n < 65536) :
    Make OpConstant [n] = [OpConstant, n / 256, n % 256] ∧
    (Make OpConstant [n]).length = 3 ∧
    (Make OpConstant [n]).head? = some OpConstant ∧
    ReadUint16 ((Make OpConstant [n]).drop 1) = n := by
  have hmod : n % 65536 = n := Nat.mod_eq_of_lt h
  have hmake : Make OpConstant [n] = [OpConstant, n / 256, n % 256] := by
    simp [Make, definitions, writeOperands, putUint16, OpConstant,
      List.replicate, hmod]
  refine ⟨hmake, by rw [hmake]; rfl, by rw [hmake]; rfl, ?_⟩
  rw [hmake]
  show 256 * ([n / 256, n % 256].getD 0 0) + [n / 256, n % 256].getD 1 0 = n
  simp only [List.getD, List.get?, Option.getD_some]
  omega

/-- Witness for C9 at `n = 258`: the instruction is `[0, 1, 2]` and decodes
back to 258. -/
theorem make_readUint16_roundtrip_witness :
    Make OpConstant [258] = [OpConstant, 258 / 256, 258 % 256] ∧
    (Make OpConstant [258]).length = 3 ∧
    (Make OpConstant [258]).head? = some OpConstant ∧
    ReadUint16 ((Make OpConstant [258]).drop 1) = 258 :=
  make_readUint16_roundtrip 258 (by decide)

/-- **C1** (counterexample to the claim as stated). Compiling the infix
expression `1 + 2` yields exactly the two `OpConstant` instructions of the
operands — `[0,0,0, 0,0,1]` — and *not* those six bytes followed by an
`OpAdd` opcode; compiling `1 < 2` interns the left operand first (constants
`[1, 2]`, so no operand swap happened) and appends no `OpGreater`. -/
theorem c1_infix_counterexample :
    (compile (Node.infixExpr "+" (Node.integerLiteral 1) (Node.integerLiteral 2))
        BuildCompiler).instructions = [0, 0, 0, 0, 0, 1] ∧
    (compile (Node.infixExpr "+" (Node.integerLiteral 1) (Node.integerLiteral 2))
        BuildCompiler).instructions ≠
      (compile (Node.integerLiteral 2)
          (compile (Node.integerLiteral 1) BuildCompiler)).instructions ++ [OpAdd] ∧
    (compile (Node.infixExpr "<" (Node.integerLiteral 1) (Node.integerLiteral 2))
        BuildCompiler).constants = [Obj.integer 1, Obj.integer 2] ∧
    (compile (Node.infixExpr "<" (Node.integerLiteral 1) (Node.integerLiteral 2))
        BuildCompiler).instructions ≠
      (compile (Node.integerLiteral 1)
          (compile (Node.integerLiteral 2) BuildCompiler)).instructions ++ [OpGreater] :=
  ⟨rfl, by decide, rfl, by decide⟩

/-- **C1** (amended). The source compiler's `*ast.Infix` case compiles the
left operand, then the right operand, and emits no operator opcode — for
every operator string, including `<`, which gets no operand swap and no
special treatment. -/
theorem c1_infix_compiles_left_then_right_only (op : String) (l r : Node)
    (c : Compiler) :
    compile (Node.infixExpr op l r) c = compile r (compile l c) := rfl

/-- **C2** (counterexample to the claim as stated). Compiling the
expression statement `5;` yields exactly the three bytes of
`OpConstant 0` — the compiled expression alone — and *not* those bytes
followed by an `OpPop`. -/
theorem c2_expressionStatement_counterexample :
    (compile (Node.expressionStatement (Node.integerLiteral 5))
        BuildCompiler).instructions = [0, 0, 0] ∧
    (compile (Node.integerLiteral 5) BuildCompiler).instructions = [0, 0, 0] ∧
    (compile (Node.expressionStatement (Node.integerLiteral 5))
        BuildCompiler).instructions ≠
      (compile (Node.integerLiteral 5) BuildCompiler).instructions ++ [OpPop] :=
  ⟨rfl, rfl, by decide⟩

/-- **C2** (amended). The source compiler's `*ast.ExpressionStatement` case
compiles the contained expression and emits nothing more — in particular,
no `OpPop`. -/
theorem c2_expressionStatement_no_pop (e : Node) (c : Compiler) :
    compile (Node.expressionStatement e) c = compile e c := rfl

/-- **C8** (confirmed). A push with the stack pointer already at the
capacity of 2,048 returns the fatal "Stack overflow" error (which `Run`
propagates, aborting the run); a push below capacity stores the value at
`stack[stackPointer]` and increments the pointer by exactly one. -/
theorem c8_push_overflow_and_store (vm : VM) (o : Obj) :
    (vm.stackPointer = stackCapacity → push vm o = Res.vmError "Stack overflow") ∧
    (vm.stackPointer < stackCapacity → vm.stackPointer < vm.stack.length →
      push vm o = Res.ok { vm with stack := vm.stack.set vm.stackPointer o,
                                   stackPointer := vm.stackPointer + 1 }) := by
  constructor
  · intro h
    have : stackCapacity ≤ vm.stackPointer := by omega
    simp only [push, this, if_true]
  · intro h1 h2
    exact push_ok vm o h1 h2

/-- Witness for C8: a push at pointer 2,048 overflows; a push at pointer 0
into a 1-slot stack stores the value at slot 0 and moves the pointer to 1. -/
theorem c8_push_overflow_and_store_witness :
    push { constants := [], stack := [], stackPointer := stackCapacity,
           globals := [], frames := [], framesIndex := 0 } (Obj.integer 3) =
      Res.vmError "Stack overflow" ∧
    push { constants := [], stack := [Obj.null], stackPointer := 0,
           globals := [], frames := [], framesIndex := 0 } (Obj.integer 3) =
      Res.ok { constants := [], stack := [Obj.integer 3], stackPointer := 1,
               globals := [], frames := [], framesIndex := 0 } :=
  ⟨(c8_push_overflow_and_store _ (Obj.integer 3)).1 rfl,
   (c8_push_overflow_and_store
      { constants := [], stack := [Obj.null], stackPointer := 0,
        globals := [], frames := [], framesIndex := 0 } (Obj.integer 3)).2
     (by decide) (by decide)⟩

/-- **C10** (confirmed). Immediately after any successful `pop`,
`LastPopped` returns exactly the popped value: `pop` leaves the stack
contents untouched and only decrements the pointer, so the popped value
still sits at `stack[stackPointer]`. -/
theorem c10_lastPopped_after_pop (vm vm' : VM) (o : Obj)
    (h : pop vm = Res.ok (o, vm')) :
    LastPopped vm' = Res.ok o ∧ vm'.stack = vm.stack ∧
    vm'.stackPointer + 1 = vm.stackPointer := by
  unfold pop at h
  split at h
  · exact absurd h (by simp)
  · rename_i hcond
    injection h with h2
    simp only [Prod.mk.injEq] at h2
    obtain ⟨rfl, rfl⟩ := h2
    refine ⟨?_, rfl, show vm.stackPointer - 1 + 1 = vm.stackPointer by omega⟩
    have hx : ¬ vm.stack.length ≤ vm.stackPointer - 1 := by omega
    simp [LastPopped, hx]

/-- Witness for C10: popping the single value `7` from a 1-slot stack makes
`LastPopped` return `7`, with the slot contents intact. -/
theorem c10_lastPopped_after_pop_witness :
    LastPopped { constants := [], stack := [Obj.integer 7], stackPointer := 0,
                 globals := [], frames := [], framesIndex := 0 } =
      Res.ok (Obj.integer 7) ∧
    ({ constants := [], stack := [Obj.integer 7], stackPointer := 0,
       globals := [], frames := [], framesIndex := 0 } : VM).stack =
      ({ constants := [], stack := [Obj.integer 7], stackPointer := 1,
         globals := [], frames := [], framesIndex := 0 } : VM).stack ∧
    ({ constants := [], stack := [Obj.integer 7], stackPointer := 0,
       globals := [], frames := [], framesIndex := 0 } : VM).stackPointer + 1 =
      ({ constants := [], stack := [Obj.integer 7], stackPointer := 1,
         globals := [], frames := [], framesIndex := 0 } : VM).stackPointer :=
  c10_lastPopped_after_pop
    { constants := [], stack := [Obj.integer 7], stackPointer := 1,
      globals := [], frames := [], framesIndex := 0 }
    { constants := [], stack := [Obj.integer 7], stackPointer := 0,
      globals := [], frames := [], framesIndex := 0 }
    (Obj.integer 7) rfl

/-- A frame for populating full frame stacks in counterexamples. -/
def mainFrameW : Frame := BuildFrame ⟨[], 0, 0⟩ 0

/-- A frame stack already holding its full capacity of 1,024 frames. -/
def fullFramesW : List (Option Frame) :=
  List.replicate frameCapacity (some mainFrameW)

/-- A VM state about to execute `OpCall 0` on a valid zero-argument callee
while the frame stack already holds 1,024 frames. -/
def c3vm : VM :=
  { constants := [], stack := [Obj.compiledFunction 0 ⟨[], 0, 0⟩],
    stackPointer := 1, globals := [], frames := fullFramesW,
    framesIndex := frameCapacity }

/-- **C3** (counterexample to the claim as stated). With the frame stack
already holding its full 1,024 frames, an `OpCall` on a valid callee does
*not* surface the overflow as an error result: the unguarded
`frames[framesIndex] = f` write is out of range, a Go runtime panic that
crashes the process. -/
theorem c3_counterexample :
    c3vm.framesIndex = frameCapacity ∧ c3vm.frames.length = frameCapacity ∧
    callFunction c3vm 0 = Res.goPanic "index out of range" :=
  ⟨rfl, by simp [c3vm, fullFramesW], by
    have h3 : ¬ frameCapacity < fullFramesW.length := by simp [fullFramesW]
    simp [callFunction, c3vm, pushFrame, h3, Res.bind]⟩

/-- **C3** (amended). When `OpCall` reaches a valid callee of matching
arity but the frame stack already holds `len(frames)` frames (1,024 in the
source), the frame push is unguarded: the VM does not return an error —
the out-of-range slice write is a Go runtime panic that crashes the whole
process. -/
theorem c3_frame_overflow_panics (vm : VM) (numArgs a : Nat) (fn : CompiledFn)
    (hsp : 1 + numArgs ≤ vm.stackPointer)
    (hlen : vm.stackPointer ≤ vm.stack.length)
    (hcallee : vm.stack.getD (vm.stackPointer - 1 - numArgs) Obj.null =
      Obj.compiledFunction a fn)
    (hparams : numArgs = fn.numParameters)
    (hfull : vm.frames.length ≤ vm.framesIndex) :
    callFunction vm numArgs = Res.goPanic "index out of range" := by
  have h1 : ¬ vm.stackPointer < 1 + numArgs := by omega
  have h2 : ¬ vm.stack.length ≤ vm.stackPointer - 1 - numArgs := by omega
  have h3 : ¬ vm.framesIndex < vm.frames.length := by omega
  unfold callFunction
  rw [if_neg h1, if_neg h2, hcallee]
  simp [hparams, pushFrame, h3, Res.bind]

/-- Witness for the amended C3 at the concrete full-frame-stack state. -/
theorem c3_frame_overflow_panics_witness :
    callFunction c3vm 0 = Res.goPanic "index out of range" :=
  c3_frame_overflow_panics c3vm 0 0 ⟨[], 0, 0⟩ (by decide) (by decide) rfl rfl
    (by simp [c3vm, fullFramesW])

/-- A VM state about to execute `OpCall 1` on a valid one-argument callee
while the frame stack already holds 1,024 frames. -/
def c5vmFull : VM :=
  { constants := [],
    stack := [Obj.compiledFunction 0 ⟨[], 1, 1⟩, Obj.integer 7],
    stackPointer := 2, globals := [], frames := fullFramesW,
    framesIndex := frameCapacity }

/-- **C5** (counterexample to the claim as stated). The "otherwise a new
frame … is pushed" arm fails when the frame stack is full: with 1,024
frames already on the stack, `OpCall 1` on a valid callee of matching
arity panics (out-of-range write) instead of pushing a frame. -/
theorem c5_counterexample :
    c5vmFull.framesIndex = frameCapacity ∧
    c5vmFull.frames.length = frameCapacity ∧
    callFunction c5vmFull 1 = Res.goPanic "index out of range" :=
  ⟨rfl, by simp [c5vmFull, fullFramesW], by
    have h3 : ¬ frameCapacity < fullFramesW.length := by simp [fullFramesW]
    simp [callFunction, c5vmFull, pushFrame, h3, Res.bind]⟩

/-- **C5** (amended). `OpCall argc`, provided the callee slot is in range
and fewer than `len(frames)` frames are on the frame stack: a non-function
callee errors "Calling non-function"; a compiled function of the wrong
arity errors "Wrong number of arguments"; otherwise a frame with
`base_pointer = sp - argc` is pushed and the stack pointer becomes
`base_pointer + num_locals`. (With a full frame stack the push panics
instead — see the counterexample.) -/
theorem c5_opCall_dispatch (vm : VM) (numArgs : Nat)
    (hsp : 1 + numArgs ≤ vm.stackPointer)
    (hlen : vm.stackPointer ≤ vm.stack.length)
    (hroom : vm.framesIndex < vm.frames.length) :
    ((vm.stack.getD (vm.stackPointer - 1 - numArgs) Obj.null).isCompiledFunctionObj
        = false →
      callFunction vm numArgs = Res.vmError "Calling non-function") ∧
    (∀ a fn, vm.stack.getD (vm.stackPointer - 1 - numArgs) Obj.null =
        Obj.compiledFunction a fn →
      numArgs ≠ fn.numParameters →
      callFunction vm numArgs = Res.vmError
        ("Wrong number of arguments. Expected=" ++ toString fn.numParameters ++
          ", Actual=" ++ toString numArgs)) ∧
    (∀ a fn, vm.stack.getD (vm.stackPointer - 1 - numArgs) Obj.null =
        Obj.compiledFunction a fn →
      numArgs = fn.numParameters →
      callFunction vm numArgs = Res.ok
        { vm with
          frames := vm.frames.set vm.framesIndex
            (some (BuildFrame fn (vm.stackPointer - numArgs))),
          framesIndex := vm.framesIndex + 1,
          stackPointer := vm.stackPointer - numArgs + fn.numLocals }) := by
  have h1 : ¬ vm.stackPointer < 1 + numArgs := by omega
  have h2 : ¬ vm.stack.length ≤ vm.stackPointer - 1 - numArgs := by omega
  refine ⟨?_, ?_, ?_⟩
  · intro hnc
    unfold callFunction
    rw [if_neg h1, if_neg h2]
    cases hobj : vm.stack.getD (vm.stackPointer - 1 - numArgs) Obj.null <;>
      first
        | rfl
        | (rw [hobj] at hnc; simp [Obj.isCompiledFunctionObj] at hnc)
  · intro a fn heq hne
    unfold callFunction
    rw [if_neg h1, if_neg h2, heq]
    simp [hne]
  · intro a fn heq hpar
    unfold callFunction
    rw [if_neg h1, if_neg h2, heq]
    simp only [hpar, ne_eq, not_true_eq_false, if_false, ite_false,
      if_neg (fun hc : ¬ fn.numParameters = fn.numParameters => hc rfl)]
    unfold pushFrame
    rw [if_pos hroom]
    simp only [Res.bind, BuildFrame, hpar]

/-- A VM state whose callee slot holds an integer (not a function). -/
def c5vmNonFn : VM :=
  { constants := [], stack := [Obj.integer 4], stackPointer := 1,
    globals := [], frames := [none], framesIndex := 0 }

/-- A VM state whose callee expects 2 parameters but gets 1 argument. -/
def c5vmArity : VM :=
  { constants := [],
    stack := [Obj.compiledFunction 0 ⟨[], 2, 2⟩, Obj.integer 7],
    stackPointer := 2, globals := [], frames := [none], framesIndex := 0 }

/-- A VM state whose `OpCall 1` succeeds: callee at slot 0, argument at
slot 1. -/
def c5vmOk : VM :=
  { constants := [],
    stack := [Obj.compiledFunction 0 ⟨[], 1, 1⟩, Obj.integer 7],
    stackPointer := 2, globals := [], frames := [none], framesIndex := 0 }

/-- Witness for the amended C5: all three arms at concrete states — the
non-function error, the arity error, and the successful frame push with
`base_pointer = 2 - 1 = 1` and `sp = 1 + 1 = 2`. -/
theorem c5_opCall_dispatch_witness :
    callFunction c5vmNonFn 0 = Res.vmError "Calling non-function" ∧
    callFunction c5vmArity 1 = Res.vmError
      "Wrong number of arguments. Expected=2, Actual=1" ∧
    callFunction c5vmOk 1 = Res.ok
      { c5vmOk with frames := [some (BuildFrame ⟨[], 1, 1⟩ 1)],
                    framesIndex := 1, stackPointer := 2 } :=
  ⟨(c5_opCall_dispatch c5vmNonFn 0 (by decide) (by decide) (by decide)).1 rfl,
   (c5_opCall_dispatch c5vmArity 1 (by decide) (by decide) (by decide)).2.1
     0 ⟨[], 2, 2⟩ rfl (by decide),
   (c5_opCall_dispatch c5vmOk 1 (by decide) (by decide) (by decide)).2.2
     0 ⟨[], 1, 1⟩ rfl rfl⟩

/-- `popFrame` with at least one frame on the stack. -/
theorem popFrame_ok (vm : VM) (h : 1 ≤ vm.framesIndex) :
    popFrame vm = .ok (vm.frames.getD (vm.framesIndex - 1) none,
                       { vm with framesIndex := vm.framesIndex - 1 }) := by
  have h0 : ¬ vm.framesIndex = 0 := by omega
  simp only [popFrame, h0, if_false]

/-- The `OpReturnValue` arm on a well-formed state: the popped frame comes
off, the stack pointer lands on the frame's `base_pointer` (the `- 1` for
the callee slot followed by the `+ 1` of pushing the return value), and the
return value sits where the callee was. -/
theorem execReturnValue_ok (vm : VM) (f : Frame)
    (hsp : 1 ≤ vm.stackPointer) (hlen : vm.stackPointer ≤ vm.stack.length)
    (hidx : 1 ≤ vm.framesIndex)
    (hf : vm.frames.getD (vm.framesIndex - 1) none = some f)
    (hbp1 : 1 ≤ f.basePointer) (hbpcap : f.basePointer ≤ stackCapacity)
    (hbplen : f.basePointer ≤ vm.stack.length) :
    execReturnValue vm = Res.ok
      { vm with
        framesIndex := vm.framesIndex - 1,
        stack := vm.stack.set (f.basePointer - 1)
          (vm.stack.getD (vm.stackPointer - 1) Obj.null),
        stackPointer := f.basePointer } := by
  have hbp0 : ¬ f.basePointer = 0 := by omega
  have hc1 : ¬ stackCapacity ≤ f.basePointer - 1 := by omega
  have hc2 : ¬ vm.stack.length ≤ f.basePointer - 1 := by omega
  have hfix : f.basePointer - 1 + 1 = f.basePointer := by omega
  rw [execReturnValue, pop_ok vm hsp hlen]
  simp only [Res.bind]
  rw [popFrame_ok { vm with stackPointer := vm.stackPointer - 1 } hidx]
  simp only [Res.bind, hf, hbp0, if_false, push, hc1, hc2, hfix]

/-- The `OpReturnNothing` arm on a well-formed state: as for
`OpReturnValue`, but the pushed value is the `Null` singleton. -/
theorem execReturnNothing_ok (vm : VM) (f : Frame)
    (hidx : 1 ≤ vm.framesIndex)
    (hf : vm.frames.getD (vm.framesIndex - 1) none = some f)
    (hbp1 : 1 ≤ f.basePointer) (hbpcap : f.basePointer ≤ stackCapacity)
    (hbplen : f.basePointer ≤ vm.stack.length) :
    execReturnNothing vm = Res.ok
      { vm with
        framesIndex := vm.framesIndex - 1,
        stack := vm.stack.set (f.basePointer - 1) Obj.null,
        stackPointer := f.basePointer } := by
  have hbp0 : ¬ f.basePointer = 0 := by omega
  have hc1 : ¬ stackCapacity ≤ f.basePointer - 1 := by omega
  have hc2 : ¬ vm.stack.length ≤ f.basePointer - 1 := by omega
  have hfix : f.basePointer - 1 + 1 = f.basePointer := by omega
  rw [execReturnNothing, popFrame_ok _ hidx]
  simp only [Res.bind, hf, hbp0, if_false, push, hc1, hc2, hfix]

/-- **C4** (confirmed). A successful `OpCall argc` pushes a frame whose
`base_pointer` is `sp₀ - argc`; when a matching `OpReturnValue` or
`OpReturnNothing` later executes with that frame on top, the resulting
stack pointer is `sp₀ - (1 + argc) + 1`: the single return value replaces
the callee and its `argc` arguments. -/
theorem c4_call_return_stack_effect (vm vm1 vm2 : VM) (argc : Nat) (f : Frame)
    (hcap : vm.stackPointer ≤ stackCapacity)
    (hcall : callFunction vm argc = Res.ok vm1)
    (hf : vm1.frames.getD (vm1.framesIndex - 1) none = some f)
    (hidx : 1 ≤ vm2.framesIndex)
    (hf2 : vm2.frames.getD (vm2.framesIndex - 1) none = some f)
    (hsp2 : 1 ≤ vm2.stackPointer)
    (hlen2 : vm2.stackPointer ≤ vm2.stack.length)
    (hbp : f.basePointer ≤ vm2.stackPointer) :
    (∃ w, execReturnValue vm2 = Res.ok w ∧
      w.stackPointer = vm.stackPointer - (1 + argc) + 1) ∧
    (∃ w, execReturnNothing vm2 = Res.ok w ∧
      w.stackPointer = vm.stackPointer - (1 + argc) + 1) := by
  obtain ⟨hargs, hroom, a, fn, hcallee, hpar, hvm1⟩ :=
    callFunction_ok_inv vm vm1 argc hcall
  have hfr : vm1.frames =
      vm.frames.set vm.framesIndex
        (some (BuildFrame fn (vm.stackPointer - argc))) := by rw [hvm1]
  have hfi : vm1.framesIndex = vm.framesIndex + 1 := by rw [hvm1]
  rw [hfr, hfi, show vm.framesIndex + 1 - 1 = vm.framesIndex from rfl,
    getD_set_self _ _ _ _ hroom] at hf
  injection hf with hff
  have hbpv : f.basePointer = vm.stackPointer - argc := by rw [← hff]; rfl
  have hbp1 : 1 ≤ f.basePointer := by omega
  have hbpcap : f.basePointer ≤ stackCapacity := by omega
  have hbplen2 : f.basePointer ≤ vm2.stack.length := by omega
  refine ⟨⟨_, execReturnValue_ok vm2 f hsp2 hlen2 hidx hf2 hbp1 hbpcap hbplen2, ?_⟩,
          ⟨_, execReturnNothing_ok vm2 f hidx hf2 hbp1 hbpcap hbplen2, ?_⟩⟩
  · show f.basePointer = vm.stackPointer - (1 + argc) + 1
    omega
  · show f.basePointer = vm.stackPointer - (1 + argc) + 1
    omega

/-- The callee for the C4 witness: one parameter, one local. -/
def c4fn : CompiledFn := ⟨[], 1, 1⟩

/-- The C4 witness state before `OpCall 1`: callee at slot 0, argument at
slot 1, stack pointer 2. -/
def c4vmPre : VM :=
  { constants := [], stack := [Obj.compiledFunction 0 c4fn, Obj.integer 7],
    stackPointer := 2, globals := [], frames := [none, none], framesIndex := 1 }

/-- The frame the C4 witness call pushes: `base_pointer = 2 - 1 = 1`. -/
def c4frame : Frame := BuildFrame c4fn 1

/-- The C4 witness state after the call: the new frame is on top and
`sp = base_pointer + num_locals = 2`. -/
def c4vmPost : VM :=
  { constants := [], stack := [Obj.compiledFunction 0 c4fn, Obj.integer 7],
    stackPointer := 2, globals := [], frames := [none, some c4frame],
    framesIndex := 2 }

/-- Witness for C4: the concrete call at `sp₀ = 2` with `argc = 1` returns
(either way) with stack pointer `2 - (1 + 1) + 1 = 1`. -/
theorem c4_call_return_stack_effect_witness :
    (∃ w, execReturnValue c4vmPost = Res.ok w ∧
      w.stackPointer = c4vmPre.stackPointer - (1 + 1) + 1) ∧
    (∃ w, execReturnNothing c4vmPost = Res.ok w ∧
      w.stackPointer = c4vmPre.stackPointer - (1 + 1) + 1) :=
  c4_call_return_stack_effect c4vmPre c4vmPost c4vmPost 1 c4frame (by decide)
    rfl rfl (by decide) rfl (by decide) (by decide) (by decide)

/-- **C6** (confirmed). `executeIndex`: an array with an integer index
pushes the element when `0 ≤ i < len` and pushes `Null` otherwise, never
erring; a hash pushes the stored value for a present hashable key and
`Null` on a miss, erring exactly when the key is not hashable; any other
collection type is the "Index operator not supported" error. -/
theorem c6_executeIndex_cases (vm : VM)
    (hcap : vm.stackPointer < stackCapacity)
    (hlen : vm.stackPointer < vm.stack.length) :
    (∀ a elems i, executeIndex vm (Obj.array a elems) (Obj.integer i) =
      Res.ok { vm with
        stack := vm.stack.set vm.stackPointer
          (if 0 ≤ i ∧ i < (elems.length : Int) then elems.getD i.toNat Obj.null
           else Obj.null),
        stackPointer := vm.stackPointer + 1 }) ∧
    (∀ a pairs k key, hashKeyOf k = some key →
      executeIndex vm (Obj.hash a pairs) k =
      Res.ok { vm with
        stack := vm.stack.set vm.stackPointer
          (match pairs.find? (fun p => p.1 = key) with
           | some pair => pair.2.2
           | none => Obj.null),
        stackPointer := vm.stackPointer + 1 }) ∧
    (∀ a pairs k, hashKeyOf k = none →
      executeIndex vm (Obj.hash a pairs) k =
        Res.vmError "Unusable as hash key") ∧
    (∀ left index, left.type ≠ ObjType.ARRAY_OBJECT →
      left.type ≠ ObjType.HASH_OBJECT →
      executeIndex vm left index =
        Res.vmError ("Index operator not supported for " ++ left.type.typeName)) := by
  refine ⟨?_, ?_, ?_, ?_⟩
  · intro a elems i
    have hstep : executeIndex vm (Obj.array a elems) (Obj.integer i) =
        executeArrayIndex vm (Obj.array a elems) (Obj.integer i) := by
      simp [executeIndex, Obj.type]
    rw [hstep]
    by_cases hi : 0 ≤ i ∧ i < (elems.length : Int)
    · have hneg : ¬ (i < 0 ∨ (elems.length : Int) - 1 < i) := by omega
      rw [if_pos hi]
      simp only [executeArrayIndex]
      rw [if_neg hneg]
      exact push_ok vm _ hcap hlen
    · have hposc : i < 0 ∨ (elems.length : Int) - 1 < i := by omega
      rw [if_neg hi]
      simp only [executeArrayIndex]
      rw [if_pos hposc]
      exact push_ok vm _ hcap hlen
  · intro a pairs k key hk
    have hstep : executeIndex vm (Obj.hash a pairs) k =
        executeHashIndex vm pairs k := by
      simp [executeIndex, Obj.type]
    rw [hstep]
    simp only [executeHashIndex, hk]
    cases hfind : pairs.find? (fun p => p.1 = key) with
    | none => exact push_ok vm _ hcap hlen
    | some pair => exact push_ok vm _ hcap hlen
  · intro a pairs k hk
    have hstep : executeIndex vm (Obj.hash a pairs) k =
        executeHashIndex vm pairs k := by
      simp [executeIndex, Obj.type]
    rw [hstep]
    simp only [executeHashIndex, hk]
  · intro left index h1 h2
    have hcond1 : ¬ (left.type = ObjType.ARRAY_OBJECT ∧
        index.type = ObjType.INTEGER_OBJECT) := fun hc => h1 hc.1
    simp only [executeIndex, hcond1, if_false, h2]

/-- The small VM state (one free stack slot) used by the C6 witness. -/
def c6vm : VM :=
  { constants := [], stack := [Obj.null], stackPointer := 0, globals := [],
    frames := [], framesIndex := 0 }

/-- Witness for C6: a concrete in-range array read pushes the element, a
present string key reads back its hash value, an unhashable key errors,
and indexing an integer errors. -/
theorem c6_executeIndex_cases_witness :
    executeIndex c6vm (Obj.array 0 [Obj.integer 9]) (Obj.integer 0) =
      Res.ok { constants := [], stack := [Obj.integer 9], stackPointer := 1,
               globals := [], frames := [], framesIndex := 0 } ∧
    executeIndex c6vm
        (Obj.hash 0 [(HashKey.strKey "b", Obj.str 1 "b", Obj.integer 2)])
        (Obj.str 2 "b") =
      Res.ok { constants := [], stack := [Obj.integer 2], stackPointer := 1,
               globals := [], frames := [], framesIndex := 0 } ∧
    executeIndex c6vm (Obj.hash 0 []) (Obj.array 5 []) =
      Res.vmError "Unusable as hash key" ∧
    executeIndex c6vm (Obj.integer 1) Obj.null =
      Res.vmError "Index operator not supported for INTEGER" :=
  ⟨(c6_executeIndex_cases c6vm (by decide) (by decide)).1 0 [Obj.integer 9] 0,
   (c6_executeIndex_cases c6vm (by decide) (by decide)).2.1 0
     [(HashKey.strKey "b", Obj.str 1 "b", Obj.integer 2)] (Obj.str 2 "b")
     (HashKey.strKey "b") rfl,
   (c6_executeIndex_cases c6vm (by decide) (by decide)).2.2.1 0 []
     (Obj.array 5 []) rfl,
   (c6_executeIndex_cases c6vm (by decide) (by decide)).2.2.2 (Obj.integer 1)
     Obj.null (by decide) (by decide)⟩

/-- A VM state whose comparison operands are mixed: left (slot 0) is the
boolean singleton `True`, right (slot 1) is the integer 1. -/
def c7vmMixed : VM :=
  { constants := [], stack := [Obj.boolean true, Obj.integer 1],
    stackPointer := 2, globals := [], frames := [], framesIndex := 0 }

/-- **C7** (counterexample to the claim as stated). Executing `OpEqual` on
operands `true` (left) and `1` (right): one operand *is* an integer, yet
no boolean singleton is pushed — the `left.(*object.Integer)` type
assertion fails and Go panics, crashing the run. -/
theorem c7_counterexample :
    executeComparison c7vmMixed OpEqual = Res.goPanic "interface conversion" :=
  rfl

/-- `executeComparison` on a state with at least two stacked operands,
written in terms of the popped right (`stack[sp-1]`) and left
(`stack[sp-2]`) values. -/
theorem executeComparison_pops (vm : VM) (op : Nat) (l r : Obj)
    (hsp : 2 ≤ vm.stackPointer)
    (hlen : vm.stackPointer ≤ vm.stack.length)
    (hr : vm.stack.getD (vm.stackPointer - 1) Obj.null = r)
    (hl : vm.stack.getD (vm.stackPointer - 2) Obj.null = l) :
    executeComparison vm op =
      if l.type = ObjType.INTEGER_OBJECT ∨ r.type = ObjType.INTEGER_OBJECT then
        executeIntegerComparison
          { vm with stackPointer := vm.stackPointer - 2 } l op r
      else if op = OpEqual then
        push { vm with stackPointer := vm.stackPointer - 2 }
          (toBooleanObject (refEq r l))
      else if op = OpNotEqual then
        push { vm with stackPointer := vm.stackPointer - 2 }
          (toBooleanObject (¬ refEq r l))
      else
        Res.vmError ("Unknown operator: " ++ l.type.typeName ++ " " ++
          toString op ++ " " ++ r.type.typeName) := by
  rw [executeComparison, pop_ok vm (by omega) (by omega)]
  simp only [Res.bind]
  rw [pop_ok { vm with stackPointer := vm.stackPointer - 1 }
    (show 1 ≤ vm.stackPointer - 1 by omega)
    (show vm.stackPointer - 1 ≤ vm.stack.length by omega)]
  simp only [Res.bind]
  rw [show vm.stackPointer - 1 - 1 = vm.stackPointer - 2 from by omega, hr, hl]

/-- **C7** (amended). Comparison opcodes: when *both* operands are
integers, the integer comparison's boolean singleton is pushed; when
exactly one operand is an integer, the VM does not push and does not
error — the failed integer type assertion is a Go runtime panic; when
neither is an integer, `OpEqual`/`OpNotEqual` push the singleton for Go
identity equality of the operands and `OpGreater` is the "Unknown
operator" error. -/
theorem c7_comparison_dispatch (vm : VM) (op : Nat) (l r : Obj)
    (hsp : 2 ≤ vm.stackPointer)
    (hlen : vm.stackPointer ≤ vm.stack.length)
    (hcap : vm.stackPointer ≤ stackCapacity)
    (hr : vm.stack.getD (vm.stackPointer - 1) Obj.null = r)
    (hl : vm.stack.getD (vm.stackPointer - 2) Obj.null = l) :
    (∀ lv rv, l = Obj.integer lv → r = Obj.integer rv →
      executeComparison vm OpEqual = Res.ok { vm with
        stack := vm.stack.set (vm.stackPointer - 2)
          (toBooleanObject (lv = rv)),
        stackPointer := vm.stackPointer - 1 } ∧
      executeComparison vm OpNotEqual = Res.ok { vm with
        stack := vm.stack.set (vm.stackPointer - 2)
          (toBooleanObject (¬ lv = rv)),
        stackPointer := vm.stackPointer - 1 } ∧
      executeComparison vm OpGreater = Res.ok { vm with
        stack := vm.stack.set (vm.stackPointer - 2)
          (toBooleanObject (rv < lv)),
        stackPointer := vm.stackPointer - 1 }) ∧
    ((l.type = ObjType.INTEGER_OBJECT ∨ r.type = ObjType.INTEGER_OBJECT) →
      ¬ (l.type = ObjType.INTEGER_OBJECT ∧ r.type = ObjType.INTEGER_OBJECT) →
      executeComparison vm op = Res.goPanic "interface conversion") ∧
    (l.type ≠ ObjType.INTEGER_OBJECT → r.type ≠ ObjType.INTEGER_OBJECT →
      executeComparison vm OpEqual = Res.ok { vm with
        stack := vm.stack.set (vm.stackPointer - 2)
          (toBooleanObject (refEq r l)),
        stackPointer := vm.stackPointer - 1 } ∧
      executeComparison vm OpNotEqual = Res.ok { vm with
        stack := vm.stack.set (vm.stackPointer - 2)
          (toBooleanObject (¬ refEq r l)),
        stackPointer := vm.stackPointer - 1 } ∧
      executeComparison vm OpGreater = Res.vmError
        ("Unknown operator: " ++ l.type.typeName ++ " " ++
          toString OpGreater ++ " " ++ r.type.typeName)) := by
  have hpcap : vm.stackPointer - 2 < stackCapacity := by
    simp only [stackCapacity] at hcap ⊢
    omega
  have hplen : vm.stackPointer - 2 < vm.stack.length := by omega
  have hfix : vm.stackPointer - 2 + 1 = vm.stackPointer - 1 := by omega
  refine ⟨?_, ?_, ?_⟩
  · intro lv rv hlv hrv
    subst hlv
    subst hrv
    have hone : (Obj.integer lv).type = ObjType.INTEGER_OBJECT ∨
        (Obj.integer rv).type = ObjType.INTEGER_OBJECT := Or.inl rfl
    refine ⟨?_, ?_, ?_⟩ <;>
      rw [executeComparison_pops vm _ _ _ hsp hlen hr hl, if_pos hone] <;>
      simp only [executeIntegerComparison, OpEqual, OpNotEqual, OpGreater] <;>
      norm_num <;>
      rw [push_ok _ _ hpcap hplen] <;>
      rw [hfix]
  · intro hone hnotboth
    rw [executeComparison_pops vm op l r hsp hlen hr hl, if_pos hone]
    cases l <;> cases r <;>
      first
        | rfl
        | (exfalso; simp [Obj.type] at hone hnotboth)
  · intro h1 h2
    have hcond : ¬ (l.type = ObjType.INTEGER_OBJECT ∨
        r.type = ObjType.INTEGER_OBJECT) := by
      intro hc
      cases hc with
      | inl h => exact h1 h
      | inr h => exact h2 h
    refine ⟨?_, ?_, ?_⟩ <;>
      rw [executeComparison_pops vm _ _ _ hsp hlen hr hl, if_neg hcond] <;>
      simp only [OpEqual, OpNotEqual, OpGreater] <;>
      norm_num <;>
      try (rw [push_ok _ _ hpcap hplen]; rw [hfix])

/-- A VM state whose comparison operands are the integers 2 (left) and 3
(right). -/
def c7vmInts : VM :=
  { constants := [], stack := [Obj.integer 2, Obj.integer 3],
    stackPointer := 2, globals := [], frames := [], framesIndex := 0 }

/-- A VM state whose comparison operands are both the shared `True`
singleton. -/
def c7vmBools : VM :=
  { constants := [], stack := [Obj.boolean true, Obj.boolean true],
    stackPointer := 2, globals := [], frames := [], framesIndex := 0 }

/-- Witness for the amended C7: `2 == 3`, `2 != 3` and `2 > 3` push the
integer-comparison singletons; `true == 1` panics; `true == true` and
`true != true` push the identity singletons and `true > true` is the
"Unknown operator" error. -/
theorem c7_comparison_dispatch_witness :
    (executeComparison c7vmInts OpEqual = Res.ok
      { constants := [], stack := [Obj.boolean false, Obj.integer 3],
        stackPointer := 1, globals := [], frames := [], framesIndex := 0 } ∧
     executeComparison c7vmInts OpNotEqual = Res.ok
      { constants := [], stack := [Obj.boolean true, Obj.integer 3],
        stackPointer := 1, globals := [], frames := [], framesIndex := 0 } ∧
     executeComparison c7vmInts OpGreater = Res.ok
      { constants := [], stack := [Obj.boolean false, Obj.integer 3],
        stackPointer := 1, globals := [], frames := [], framesIndex := 0 }) ∧
    executeComparison c7vmMixed OpEqual = Res.goPanic "interface conversion" ∧
    (executeComparison c7vmBools OpEqual = Res.ok
      { constants := [], stack := [Obj.boolean true, Obj.boolean true],
        stackPointer := 1, globals := [], frames := [], framesIndex := 0 } ∧
     executeComparison c7vmBools OpNotEqual = Res.ok
      { constants := [], stack := [Obj.boolean false, Obj.boolean true],
        stackPointer := 1, globals := [], frames := [], framesIndex := 0 } ∧
     executeComparison c7vmBools OpGreater = Res.vmError
      "Unknown operator: BOOLEAN 11 BOOLEAN") :=
  ⟨(c7_comparison_dispatch c7vmInts OpEqual (Obj.integer 2) (Obj.integer 3)
      (by decide) (by decide) (by decide) rfl rfl).1 2 3 rfl rfl,
   (c7_comparison_dispatch c7vmMixed OpEqual (Obj.boolean true) (Obj.integer 1)
      (by decide) (by decide) (by decide) rfl rfl).2.1
     (Or.inr rfl) (by decide),
   (c7_comparison_dispatch c7vmBools OpEqual (Obj.boolean true)
      (Obj.boolean true) (by decide) (by decide) (by decide) rfl rfl).2.2
     (by decide) (by decide)⟩

end GoInterp
